import Mathlib

/-!
Webhook delivery subsystem of `platform-core`, shallowly embedded.

This file embeds the webhook delivery subsystem of the repository
(`app/modules/webhooks/service.py` and `app/modules/webhooks/models.py`)
as executable Lean definitions, and proves the specified properties of the
signer, the delivery executor, the subscription matcher, the retry
scheduler and the event trigger against that embedding.

Conventions of the embedding:

* JSON values (`Dict[str, Any]` payloads, filter conditions) are the
  inductive `Json`; a Python `dict` is an insertion-ordered association
  list with unique keys.
* The database is a record of three tables (`DB`); SQLAlchemy queries
  become list traversals, and each ORM mutation + commit becomes a pure
  update producing the next `DB`.
* Wall-clock time (`datetime.utcnow()`) is a `Nat` passed explicitly.
* The outbound HTTP POST (`httpx`) is external; one attempt's outcome is
  an `HttpResult`: either a response (status, body) or a raised exception
  carrying a message.  The executor consumes the outcome, so "never raises
  past this boundary" is modelled by the executor being a total function.
* `hashlib.sha256` / `hmac` / `json.dumps` are Python standard library
  calls; they are modelled concretely below (FIPS 180-4 SHA-256, RFC 2104
  HMAC, and `json.dumps` with its default separators and `ensure_ascii`
  behaviour), so the signature contract is stated in full.
-/

/-! ## JSON values

Model of the JSON-serialisable Python values stored in `payload` and
`filter_conditions` columns (`JSON` SQLAlchemy type).  Arrays and objects
are mutually inductive lists so that equality is derivable. -/

mutual
inductive Json where
  | null
  | bool (b : Bool)
  | num (n : Int)
  | str (s : String)
  | arr (xs : JsonArr)
  | obj (kvs : JsonObj)
  deriving DecidableEq, Repr
inductive JsonArr where
  | nil
  | cons (hd : Json) (tl : JsonArr)
  deriving DecidableEq, Repr
inductive JsonObj where
  | nil
  | cons (key : String) (val : Json) (tl : JsonObj)
  deriving DecidableEq, Repr
end

/-- A Python `dict` with JSON values: insertion-ordered key/value list. -/
abbrev Payload := List (String × Json)

/-- Python `d[k]` lookup (and the `k in d` test) on a dict. -/
def dictGet (d : Payload) (k : String) : Option Json :=
  match d with
  | [] => none
  | kv :: tl => if kv.1 = k then some kv.2 else dictGet tl k

/-- String-valued dict, used for HTTP headers. -/
abbrev Headers := List (String × String)

/-- Python `d[k]` on a header dict. -/
def hdrGet (d : Headers) (k : String) : Option String :=
  match d with
  | [] => none
  | kv :: tl => if kv.1 = k then some kv.2 else hdrGet tl k

/-- Python `d[k] = v` on a dict: overwrite the key's entry in place if it
exists (keys are unique in a dict), else append. -/
def hdrSet (d : Headers) (k v : String) : Headers :=
  match d with
  | [] => [(k, v)]
  | kv :: tl => if kv.1 = k then (k, v) :: tl else kv :: hdrSet tl k v

/-- Python `d.update(e)`, i.e. `d[k] = v` for each entry of
`e` in order. -/
def hdrUpdate (d e : Headers) : Headers :=
  e.foldl (fun acc kv => hdrSet acc kv.1 kv.2) d

/-! ## Byte strings and UTF-8

Bytes are `Nat`s below 256 by construction.  `strBytes` models Python
`str.encode()` (UTF-8). -/

/-- UTF-8 encoding of one Unicode code point. -/
def utf8Char (c : Nat) : List Nat :=
  if c < 0x80 then [c]
  else if c < 0x800 then
    [0xC0 ||| (c >>> 6), 0x80 ||| (c &&& 0x3F)]
  else if c < 0x10000 then
    [0xE0 ||| (c >>> 12), 0x80 ||| ((c >>> 6) &&& 0x3F), 0x80 ||| (c &&& 0x3F)]
  else
    [0xF0 ||| (c >>> 18), 0x80 ||| ((c >>> 12) &&& 0x3F),
     0x80 ||| ((c >>> 6) &&& 0x3F), 0x80 ||| (c &&& 0x3F)]

/-- Model of Python `str.encode()`: UTF-8 bytes of a string. -/
def strBytes (s : String) : List Nat :=
  s.data.flatMap (fun c => utf8Char c.toNat)

/-! ## SHA-256 (FIPS 180-4) and HMAC (RFC 2104)

Concrete model of `hashlib.sha256` and `hmac.new(..., hashlib.sha256)`
as called by `WebhooksService._generate_signature`.  Words are `Nat`s
reduced mod 2^32 explicitly. -/

namespace Sha256

/-- Truncate to a 32-bit word. -/
def w32 (x : Nat) : Nat := x % 4294967296

/-- Right rotation of a 32-bit word. -/
def rotr (n x : Nat) : Nat := w32 ((x >>> n) ||| (x <<< (32 - n)))

/-- Bitwise complement of a 32-bit word. -/
def compl (x : Nat) : Nat := x ^^^ 0xFFFFFFFF

def ch (x y z : Nat) : Nat := (x &&& y) ^^^ (compl x &&& z)

def maj (x y z : Nat) : Nat := (x &&& y) ^^^ (x &&& z) ^^^ (y &&& z)

def bigSigma0 (x : Nat) : Nat := rotr 2 x ^^^ rotr 13 x ^^^ rotr 22 x

def bigSigma1 (x : Nat) : Nat := rotr 6 x ^^^ rotr 11 x ^^^ rotr 25 x

def smallSigma0 (x : Nat) : Nat := rotr 7 x ^^^ rotr 18 x ^^^ (x >>> 3)

def smallSigma1 (x : Nat) : Nat := rotr 17 x ^^^ rotr 19 x ^^^ (x >>> 10)

/-- The 64 SHA-256 round constants (FIPS 180-4 sec. 4.2.2, here as
decimal literals). -/
def K : List Nat :=
  [1116352408, 1899447441, 3049323471, 3921009573, 961987163, 1508970993,
   2453635748, 2870763221, 3624381080, 310598401, 607225278, 1426881987,
   1925078388, 2162078206, 2614888103, 3248222580, 3835390401, 4022224774,
   264347078, 604807628, 770255983, 1249150122, 1555081692, 1996064986,
   2554220882, 2821834349, 2952996808, 3210313671, 3336571891, 3584528711,
   113926993, 338241895, 666307205, 773529912, 1294757372, 1396182291,
   1695183700, 1986661051, 2177026350, 2456956037, 2730485921, 2820302411,
   3259730800, 3345764771, 3516065817, 3600352804, 4094571909, 275423344,
   430227734, 506948616, 659060556, 883997877, 958139571, 1322822218,
   1537002063, 1747873779, 1955562222, 2024104815, 2227730452, 2361852424,
   2428436474, 2756734187, 3204031479, 3329325298]

/-- The initial hash value (FIPS 180-4 sec. 5.3.3, decimal). -/
def H0 : List Nat :=
  [1779033703, 3144134277, 1013904242, 2773480762, 1359893119, 2600822924,
   528734635, 1541459225]

/-- Big-endian bytes of a 64-bit quantity. -/
def beBytes8 (n : Nat) : List Nat :=
  [w32 0 + (n >>> 56) % 256, (n >>> 48) % 256, (n >>> 40) % 256, (n >>> 32) % 256,
   (n >>> 24) % 256, (n >>> 16) % 256, (n >>> 8) % 256, n % 256]

/-- Big-endian bytes of a 32-bit word. -/
def beBytes4 (n : Nat) : List Nat :=
  [(n >>> 24) % 256, (n >>> 16) % 256, (n >>> 8) % 256, n % 256]

/-- SHA-256 message padding: append `0x80`, zero bytes up to 56 mod 64,
then the 64-bit big-endian bit length. -/
def pad (msg : List Nat) : List Nat :=
  msg ++ [0x80] ++ List.replicate ((119 - msg.length % 64) % 64) 0 ++ beBytes8 (msg.length * 8)

/-- Group bytes into big-endian 32-bit words. -/
def toWordsBE : List Nat → List Nat
  | b0 :: b1 :: b2 :: b3 :: rest =>
    ((b0 <<< 24) + (b1 <<< 16) + (b2 <<< 8) + b3) :: toWordsBE rest
  | _ => []

/-- Extend the 16 block words to the 64-entry message schedule. -/
def schedule (block : List Nat) : Array Nat :=
  (List.range 48).foldl
    (fun w _ =>
      let t := w.size
      w.push (w32 (smallSigma1 (w.getD (t - 2) 0) + w.getD (t - 7) 0 +
                   smallSigma0 (w.getD (t - 15) 0) + w.getD (t - 16) 0)))
    (Array.mk (toWordsBE block))

/-- One round of the compression function. -/
def round (s : List Nat) (kw : Nat × Nat) : List Nat :=
  match s with
  | [a, b, c, d, e, f, g, h] =>
    let t1 := w32 (h + bigSigma1 e + ch e f g + kw.1 + kw.2)
    let t2 := w32 (bigSigma0 a + maj a b c)
    [w32 (t1 + t2), a, b, c, w32 (d + t1), e, f, g]
  | other => other

/-- Compress one 64-byte block into the running hash. -/
def compress (h : List Nat) (block : List Nat) : List Nat :=
  let ws := (schedule block).toList
  let s := (K.zip ws).foldl round h
  List.zipWith (fun x y => w32 (x + y)) h s

/-- Split a byte string into 64-byte blocks (the fuel argument, at least
the number of blocks, keeps the recursion structural so that the kernel
can evaluate it). -/
def blocksAux : Nat → List Nat → List (List Nat)
  | _, [] => []
  | 0, _ :: _ => []
  | fuel + 1, b :: l => (b :: l).take 64 :: blocksAux fuel ((b :: l).drop 64)

/-- Split a byte string into 64-byte blocks. -/
def blocks (l : List Nat) : List (List Nat) :=
  blocksAux l.length l

/-- Model of `hashlib.sha256(msg).digest()`: the 32-byte SHA-256 digest. -/
def sha256 (msg : List Nat) : List Nat :=
  ((blocks (pad msg)).foldl compress H0).flatMap beBytes4

/-- Lowercase hexadecimal digit. -/
def hexChar (n : Nat) : Char :=
  if n < 10 then Char.ofNat (48 + n) else Char.ofNat (87 + n)

/-- Model of `.hexdigest()`: lowercase hex rendering of a byte string. -/
def hexOfBytes (bs : List Nat) : String :=
  String.mk (bs.flatMap (fun b => [hexChar (b / 16 % 16), hexChar (b % 16)]))

/-- Model of `hmac.new(key, msg, hashlib.sha256).digest()` (RFC 2104,
block size 64). -/
def hmacSha256 (key msg : List Nat) : List Nat :=
  let k0 := if key.length > 64 then sha256 key else key
  let kp := k0 ++ List.replicate (64 - k0.length) 0
  sha256 ((kp.map (fun b => b ^^^ 0x5c)) ++ sha256 ((kp.map (fun b => b ^^^ 0x36)) ++ msg))

end Sha256

/-! ## `json.dumps`

Model of Python `json.dumps(payload, default=json_serializer)` as called
by `_generate_signature` (`app/utils/common.py` supplies the `default`
hook, which only converts `datetime` objects and is never reached on the
JSON-representable values modelled here): default separators `", "` and
`": "`, `ensure_ascii=True` escaping. -/

/-- Four lowercase hex digits, for `\uXXXX` escapes. -/
def hex4 (n : Nat) : String :=
  String.mk [Sha256.hexChar (n >>> 12 % 16), Sha256.hexChar (n >>> 8 % 16),
             Sha256.hexChar (n >>> 4 % 16), Sha256.hexChar (n % 16)]

/-- Escaping of one character as `json.dumps` does it (`ensure_ascii=True`): the two
JSON metacharacters and the five short escapes, `\uXXXX` for other
control or non-ASCII characters (surrogate pairs above the BMP), the
character itself otherwise. -/
def jsonEscapeChar (c : Char) : String :=
  let n := c.toNat
  if c = '"' then "\\\""
  else if c = '\\' then "\\\\"
  else if n = 8 then "\\b"
  else if n = 9 then "\\t"
  else if n = 10 then "\\n"
  else if n = 12 then "\\f"
  else if n = 13 then "\\r"
  else if n < 0x20 then "\\u" ++ hex4 n
  else if n < 0x7F then String.mk [c]
  else if n < 0x10000 then "\\u" ++ hex4 n
  else "\\u" ++ hex4 (0xD800 + ((n - 0x10000) >>> 10)) ++ "\\u" ++ hex4 (0xDC00 + ((n - 0x10000) &&& 0x3FF))

/-- JSON string literal with `ensure_ascii` escaping. -/
def jsonDumpStr (s : String) : String :=
  "\"" ++ String.join (s.data.map jsonEscapeChar) ++ "\""

mutual
/-- Serialise one JSON value the way `json.dumps` renders it. -/
def dumpJson : Json → String
  | .null => "null"
  | .bool b => if b then "true" else "false"
  | .num n => toString n
  | .str s => jsonDumpStr s
  | .arr xs => "[" ++ dumpArr xs ++ "]"
  | .obj kvs => "\x7b" ++ dumpObj kvs ++ "\x7d"
/-- Array items joined by `", "` (the default item separator). -/
def dumpArr : JsonArr → String
  | .nil => ""
  | .cons x .nil => dumpJson x
  | .cons x tl => dumpJson x ++ ", " ++ dumpArr tl
/-- Object entries `key: value` joined by `", "` (default separators). -/
def dumpObj : JsonObj → String
  | .nil => ""
  | .cons k v .nil => jsonDumpStr k ++ ": " ++ dumpJson v
  | .cons k v tl => jsonDumpStr k ++ ": " ++ dumpJson v ++ ", " ++ dumpObj tl
end

/-- View a payload dict as a `JsonObj` (it serialises in insertion order). -/
def payloadToObj : Payload → JsonObj
  | [] => .nil
  | (k, v) :: tl => .cons k v (payloadToObj tl)

/-- Model of `json.dumps(payload, default=json_serializer)` on a payload
dict. -/
def jsonDumps (p : Payload) : String :=
  dumpJson (Json.obj (payloadToObj p))

/-! ## Data model (`app/modules/webhooks/models.py`)

Columns irrelevant to behaviour (`name`, `description`, `created_by`,
timestamps maintained by the ORM base model) carry no logic and are kept
only where a claim mentions them. -/

/-- The `WebhookStatus` enum. -/
inductive WebhookStatus where
  | active
  | inactive
  | failed
  deriving DecidableEq, Repr

/-- A `WebhookEndpoint` row.  `retry_count` defaults to 3 and is validated
into `0..10` by the Pydantic schema; `timeout_seconds` into `1..30`. -/
structure WebhookEndpoint where
  id : Nat
  name : String
  url : String
  secret : Option String
  status : WebhookStatus
  headers : Option Headers
  retry_count : Nat
  timeout_seconds : Nat
  deriving DecidableEq, Repr

/-- A `WebhookSubscription` row. -/
structure WebhookSubscription where
  id : Nat
  endpoint_id : Nat
  event_type : String
  filter_conditions : Option Payload
  deriving DecidableEq, Repr

/-- A `WebhookDelivery` row.  Column defaults: `success=False`,
`attempt_count=1`, the nullable columns `NULL`. -/
structure WebhookDelivery where
  id : Nat
  endpoint_id : Nat
  event_type : String
  payload : Payload
  request_headers : Option Headers
  response_status : Option Int
  response_body : Option String
  success : Bool
  attempt_count : Nat
  completed_at : Option Nat
  next_retry_at : Option Nat
  deriving DecidableEq, Repr

/-- The three webhook tables plus the delivery autoincrement counter. -/
structure DB where
  endpoints : List WebhookEndpoint
  subscriptions : List WebhookSubscription
  deliveries : List WebhookDelivery
  next_delivery_id : Nat
  deriving DecidableEq, Repr

/-- Outcome of the one external effect, `httpx.AsyncClient.post`: either
an HTTP response or a raised exception with its message (`str(e)`). -/
inductive HttpResult where
  | response (status : Int) (body : String)
  | error (msg : String)
  deriving DecidableEq, Repr

/-- The arguments `trigger_webhook` passes to
`background_tasks.add_task(WebhooksService._deliver_webhook, ...)`. -/
structure DeliveryTask where
  endpoint_id : Nat
  event_type : String
  payload : Payload
  url : String
  headers : Option Headers
  secret : Option String
  timeout_seconds : Nat
  delivery_id : Nat
  deriving DecidableEq, Repr

namespace WebhooksService

/-! ## Service layer (`app/modules/webhooks/service.py`) -/

/-- Model of `WebhooksService._generate_signature`: empty secret short-circuits to
`""`; otherwise the lowercase-hex HMAC-SHA256 of the `json.dumps` of the
payload, keyed by the secret's UTF-8 bytes. -/
def generate_signature (payload : Payload) (secret : String) : String :=
  if secret = "" then ""
  else Sha256.hexOfBytes (Sha256.hmacSha256 (strBytes secret) (strBytes (jsonDumps payload)))

/-- The join in `get_endpoints_for_event`: endpoint/subscription pairs
with `subscription.endpoint_id == endpoint.id`,
`subscription.event_type == event_type` and
`endpoint.status == WebhookStatus.ACTIVE`. -/
def get_endpoints_for_event (db : DB) (event_type : String) :
    List (WebhookEndpoint × WebhookSubscription) :=
  db.endpoints.flatMap (fun e =>
    (db.subscriptions.filter (fun s =>
      decide (s.endpoint_id = e.id ∧ s.event_type = event_type ∧
              e.status = WebhookStatus.active))).map (fun s => (e, s)))

/-- The filter loop in `trigger_webhook`: every condition key must be
present in the payload with an equal value. -/
def filter_match (conds : Payload) (payload : Payload) : Bool :=
  conds.all (fun kv =>
    match dictGet payload kv.1 with
    | some v => v == kv.2
    | none => false)

/-- The `if subscription["filter_conditions"]:` guard plus the filter loop.
A `None` filter map skips the check (Python truthiness also skips an
empty dict, and `filter_match [] _ = true`, so the two agree). -/
def matches_filter (fc : Option Payload) (payload : Payload) : Bool :=
  match fc with
  | none => true
  | some conds => filter_match conds payload

/-- A fresh `WebhookDelivery(...)` row: the column defaults of
`models.py` (`success=False`, `attempt_count=1`) and the next
autoincrement id. -/
def newDelivery (db : DB) (endpoint_id : Nat) (event_type : String)
    (payload : Payload) : WebhookDelivery :=
  { id := db.next_delivery_id
    endpoint_id := endpoint_id
    event_type := event_type
    payload := payload
    request_headers := none
    response_status := none
    response_body := none
    success := false
    attempt_count := 1
    completed_at := none
    next_retry_at := none }

/-- Model of `db.add` + `commit` of a fresh delivery row. -/
def addDelivery (db : DB) (d : WebhookDelivery) : DB :=
  { db with
    deliveries := db.deliveries ++ [d]
    next_delivery_id := db.next_delivery_id + 1 }

/-- Write back a mutated delivery row (matched by primary key). -/
def update_by_id (ds : List WebhookDelivery) (d : WebhookDelivery) :
    List WebhookDelivery :=
  ds.map (fun x => if x.id = d.id then d else x)

/-- The header assembly of `_deliver_webhook`: four generated defaults,
then `request_headers.update(headers)` for the endpoint's custom headers,
then `request_headers["X-Webhook-Signature"]` if a (truthy) secret is
present. -/
def build_request_headers (delivery_id : Nat) (event_type : String)
    (payload : Payload) (headers : Option Headers) (secret : Option String) :
    Headers :=
  let base : Headers :=
    [("Content-Type", "application/json"),
     ("User-Agent", "Dotmac-Platform-Core-Webhook"),
     ("X-Webhook-ID", toString delivery_id),
     ("X-Webhook-Event", event_type)]
  let withCustom :=
    match headers with
    | some h => hdrUpdate base h
    | none => base
  match secret with
  | some s =>
    if s = "" then withCustom
    else hdrSet withCustom "X-Webhook-Signature" (generate_signature payload s)
  | none => withCustom

/-- The "get or create delivery record" section of `_deliver_webhook`:
with a `delivery_id`, fetch the row and on a hit increment
`attempt_count` and clear `next_retry_at`; on a miss, or with no
`delivery_id`, create a fresh row. -/
def get_or_create (db : DB) (endpoint_id : Nat) (event_type : String)
    (payload : Payload) (delivery_id : Option Nat) : DB × WebhookDelivery :=
  match delivery_id with
  | some did =>
    match db.deliveries.find? (fun x => x.id == did) with
    | some d0 =>
      let d1 := { d0 with attempt_count := d0.attempt_count + 1, next_retry_at := none }
      ({ db with deliveries := update_by_id db.deliveries d1 }, d1)
    | none => (addDelivery db (newDelivery db endpoint_id event_type payload),
               newDelivery db endpoint_id event_type payload)
  | none => (addDelivery db (newDelivery db endpoint_id event_type payload),
             newDelivery db endpoint_id event_type payload)

/-- The `try/except` section of `_deliver_webhook`: on a response, record
status, body, `success = 200 <= status < 300` and `completed_at = now`;
on an exception, record status `0`, the message as body, `success =
False` and `completed_at = now`. -/
def record_result (d : WebhookDelivery) (result : HttpResult) (now : Nat) :
    WebhookDelivery :=
  match result with
  | .response st body =>
    { d with
      response_status := some st
      response_body := some body
      success := decide (200 ≤ st ∧ st < 300)
      completed_at := some now }
  | .error msg =>
    { d with
      response_status := some 0
      response_body := some msg
      success := false
      completed_at := some now }

/-- Model of `WebhooksService._deliver_webhook`.  Steps, in source order: fetch or
create the delivery record (`get_or_create`); build and persist the
request headers; perform the POST (its outcome is the `result`
argument); record the outcome (`record_result`).  The `try/except`
around the POST makes the function total: both outcomes produce a
record, none raises. -/
def deliver_webhook (db : DB) (endpoint_id : Nat) (event_type : String)
    (payload : Payload) (endpoint_url : String) (headers : Option Headers)
    (secret : Option String) (timeout_seconds : Nat)
    (delivery_id : Option Nat) (result : HttpResult) (now : Nat) :
    DB × WebhookDelivery :=
  let created := get_or_create db endpoint_id event_type payload delivery_id
  let d2 := { created.2 with
    request_headers := some (build_request_headers created.2.id event_type payload headers secret) }
  let d3 := record_result d2 result now
  ({ created.1 with deliveries := update_by_id created.1.deliveries d3 }, d3)

/-- The per-candidate body of the loop in `trigger_webhook`: filter
evaluation, delivery row creation, and the background-task descriptor
handed to `add_task`. -/
def trigger_loop (event_type : String) (payload : Payload) :
    DB → List (WebhookEndpoint × WebhookSubscription) →
    DB × List Nat × List DeliveryTask
  | db, [] => (db, [], [])
  | db, (e, s) :: rest =>
    if matches_filter s.filter_conditions payload then
      let d := newDelivery db e.id event_type payload
      let db1 := addDelivery db d
      let res := trigger_loop event_type payload db1 rest
      (res.1, d.id :: res.2.1,
       { endpoint_id := e.id
         event_type := event_type
         payload := payload
         url := e.url
         headers := e.headers
         secret := e.secret
         timeout_seconds := e.timeout_seconds
         delivery_id := d.id } :: res.2.2)
    else trigger_loop event_type payload db rest

/-- Model of `WebhooksService.trigger_webhook`: fan out over the matcher's
results; returns the updated store, the created delivery ids, and the
scheduled background deliveries. -/
def trigger_webhook (db : DB) (event_type : String) (payload : Payload) :
    DB × List Nat × List DeliveryTask :=
  trigger_loop event_type payload db (get_endpoints_for_event db event_type)

/-- Run one scheduled background delivery: `_deliver_webhook` applied to
the arguments stored by `add_task`. -/
def run_task (db : DB) (t : DeliveryTask) (result : HttpResult) (now : Nat) :
    DB × WebhookDelivery :=
  deliver_webhook db t.endpoint_id t.event_type t.payload t.url t.headers
    t.secret t.timeout_seconds (some t.delivery_id) result now

/-- Model of `select(WebhookEndpoint).where(WebhookEndpoint.id == ...)`, and the
join target of the retry query (ids are primary keys). -/
def find_endpoint (db : DB) (i : Nat) : Option WebhookEndpoint :=
  db.endpoints.find? (fun e => e.id == i)

/-- The `where` clause of the retry query in `retry_failed_deliveries`:
`success == False`, `attempt_count < endpoint.retry_count`,
`next_retry_at IS NULL OR next_retry_at <= now`, and
`endpoint.status == ACTIVE`, with the endpoint joined on
`delivery.endpoint_id == endpoint.id`. -/
def retry_eligible (db : DB) (now : Nat) (d : WebhookDelivery) : Bool :=
  match find_endpoint db d.endpoint_id with
  | some e =>
    (d.success == false) &&
    decide (d.attempt_count < e.retry_count) &&
    (match d.next_retry_at with
     | none => true
     | some t => decide (t ≤ now)) &&
    (e.status == WebhookStatus.active)
  | none => false

/-- The result set of the retry query (a snapshot taken before the
dispatch loop mutates anything). -/
def select_retries (db : DB) (now : Nat) : List WebhookDelivery :=
  db.deliveries.filter (retry_eligible db now)

/-- The backoff `retry_delay = 60 * (2 ** min(attempt_count, 5))` seconds. -/
def retry_delay (attempt_count : Nat) : Nat :=
  60 * 2 ^ (min attempt_count 5)

/-- Model of `delivery.next_retry_at = now + timedelta(seconds=retry_delay)` +
commit, before the retry is dispatched. -/
def schedule_retry (db : DB) (now : Nat) (d : WebhookDelivery) : DB :=
  { db with
    deliveries := db.deliveries.map (fun x =>
      if x.id = d.id then { x with next_retry_at := some (now + retry_delay d.attempt_count) }
      else x) }

/-- One iteration of the dispatch loop: re-fetch the endpoint (`continue`
when missing), write the backoff schedule, then run the executor
(`test_mode=True` awaits it in place).  The `Bool` reports whether this
delivery was dispatched and counted. -/
def retry_step (db : DB) (now : Nat) (d : WebhookDelivery)
    (result : HttpResult) : DB × Bool :=
  match find_endpoint db d.endpoint_id with
  | none => (db, false)
  | some e =>
    let db1 := schedule_retry db now d
    let res := deliver_webhook db1 e.id d.event_type d.payload e.url
      e.headers e.secret e.timeout_seconds (some d.id) result now
    (res.1, true)

/-- The dispatch loop over the selected deliveries; `transport` gives the
HTTP outcome of the `i`-th dispatched attempt. -/
def retry_loop (now : Nat) (transport : Nat → HttpResult) :
    DB → Nat → List WebhookDelivery → DB × Nat
  | db, _, [] => (db, 0)
  | db, idx, d :: rest =>
    let step := retry_step db now d (transport idx)
    let res := retry_loop now transport step.1 (idx + 1) rest
    (res.1, (if step.2 then 1 else 0) + res.2)

/-- Model of `WebhooksService.retry_failed_deliveries` (test mode: deliveries are
awaited in place): select the due failed deliveries at `now`, then
schedule and dispatch each, returning the dispatch count. -/
def retry_failed_deliveries (db : DB) (now : Nat)
    (transport : Nat → HttpResult) : DB × Nat :=
  retry_loop now transport db 0 (select_retries db now)

/-- Python `payload["_test"] = True` on a payload dict. -/
def payloadSet (d : Payload) (k : String) (v : Json) : Payload :=
  match d with
  | [] => [(k, v)]
  | kv :: tl => if kv.1 = k then (k, v) :: tl else kv :: payloadSet tl k v

/-- Model of `WebhooksService.test_webhook`: look up the endpoint, tag the payload
with `_test`, and run the executor with no pre-existing delivery row. -/
def test_webhook (db : DB) (endpoint_id : Nat) (event_type : String)
    (payload : Payload) (result : HttpResult) (now : Nat) :
    Option (DB × WebhookDelivery) :=
  match find_endpoint db endpoint_id with
  | none => none
  | some e =>
    some (deliver_webhook db e.id event_type
      (payloadSet payload "_test" (Json.bool true)) e.url e.headers e.secret
      e.timeout_seconds none result now)

end WebhooksService

/-! ## A concrete store for scenario runs

The scenario of §8 of the documentation: one active endpoint at
`https://example.com/hook` subscribed to `config.created` with no filter
conditions, and the payload `{"key": "x"}`.  `retry_count` is the
parameter under test. -/

/-- One active endpoint with the given `retry_count` (no secret, no
custom headers, so runs evaluate without hashing). -/
def egEndpoint (rc : Nat) : WebhookEndpoint :=
  { id := 1
    name := "E"
    url := "https://example.com/hook"
    secret := none
    status := .active
    headers := none
    retry_count := rc
    timeout_seconds := 5 }

/-- Store with `egEndpoint rc` subscribed to `config.created`. -/
def egDB (rc : Nat) : DB :=
  { endpoints := [egEndpoint rc]
    subscriptions := [{ id := 1, endpoint_id := 1, event_type := "config.created",
                        filter_conditions := none }]
    deliveries := []
    next_delivery_id := 1 }

/-- The payload `{"key": "x"}` of the scenario. -/
def egPayload : Payload := [("key", Json.str "x")]

/-- The background-task descriptor that triggering `config.created`
against `egDB rc` schedules (delivery row 1 on endpoint 1). -/
def egTask : DeliveryTask :=
  { endpoint_id := 1
    event_type := "config.created"
    payload := egPayload
    url := "https://example.com/hook"
    headers := none
    secret := none
    timeout_seconds := 5
    delivery_id := 1 }

/-- A failed delivery row (attempt 1, HTTP 500 recorded, a backoff time
far in the future) for executor re-run scenarios. -/
def egFailedDelivery : WebhookDelivery :=
  { id := 1
    endpoint_id := 1
    event_type := "config.created"
    payload := egPayload
    request_headers := none
    response_status := some 500
    response_body := some "err"
    success := false
    attempt_count := 1
    completed_at := some 50
    next_retry_at := some 999999 }

/-- Store holding `egFailedDelivery` against `egEndpoint 3`. -/
def egRetryDB : DB :=
  { endpoints := [egEndpoint 3]
    subscriptions := []
    deliveries := [egFailedDelivery]
    next_delivery_id := 2 }

/-! ## Helper lemmas -/

namespace WebhooksService

/-- The outcome recording never touches the fields written before the POST. -/
lemma record_result_untouched (d : WebhookDelivery) (r : HttpResult) (now : Nat) :
    (record_result d r now).id = d.id ∧
    (record_result d r now).endpoint_id = d.endpoint_id ∧
    (record_result d r now).attempt_count = d.attempt_count ∧
    (record_result d r now).next_retry_at = d.next_retry_at ∧
    (record_result d r now).request_headers = d.request_headers := by
  cases r <;> simp [record_result]

/-- A row that shares its id with some row of the table is present after
`update_by_id`. -/
lemma mem_update_by_id_self {l : List WebhookDelivery} {d x : WebhookDelivery}
    (hx : x ∈ l) (hid : x.id = d.id) : d ∈ update_by_id l d := by
  unfold update_by_id
  exact List.mem_map.mpr ⟨x, hx, by simp [hid]⟩

/-- Running `get_or_create` leaves a row with the returned record's id in the
table. -/
lemma exists_id_get_or_create (db : DB) (eid : Nat) (et : String) (p : Payload)
    (did : Option Nat) :
    ∃ x ∈ (get_or_create db eid et p did).1.deliveries,
      x.id = (get_or_create db eid et p did).2.id := by
  cases did with
  | none =>
    refine ⟨newDelivery db eid et p, ?_, ?_⟩ <;> simp [get_or_create, addDelivery]
  | some did =>
    cases hfind : db.deliveries.find? (fun x => x.id == did) with
    | none =>
      refine ⟨newDelivery db eid et p, ?_, ?_⟩ <;> simp [get_or_create, hfind, addDelivery]
    | some d0 =>
      refine ⟨{ d0 with attempt_count := d0.attempt_count + 1, next_retry_at := none }, ?_, ?_⟩
      · simp only [get_or_create, hfind]
        exact mem_update_by_id_self (List.mem_of_find?_eq_some hfind) rfl
      · simp [get_or_create, hfind]

/-- The record the executor returns is a row of the store it returns. -/
lemma deliver_webhook_mem (db : DB) (endpoint_id : Nat) (event_type : String)
    (payload : Payload) (endpoint_url : String) (headers : Option Headers)
    (secret : Option String) (timeout_seconds : Nat) (delivery_id : Option Nat)
    (result : HttpResult) (now : Nat) :
    (deliver_webhook db endpoint_id event_type payload endpoint_url headers
      secret timeout_seconds delivery_id result now).2 ∈
    (deliver_webhook db endpoint_id event_type payload endpoint_url headers
      secret timeout_seconds delivery_id result now).1.deliveries := by
  obtain ⟨x, hx, hid⟩ := exists_id_get_or_create db endpoint_id event_type payload delivery_id
  simp only [deliver_webhook]
  refine mem_update_by_id_self hx ?_
  rw [hid, (record_result_untouched _ result now).1]

end WebhooksService

/-! ## The claims -/

open WebhooksService

/-- C6: for every delivery attempt that receives an HTTP response, the
recorded success flag is true iff `200 <= status < 300` and
`completed_at` is set; every other status and every exception yields
`success = false` with `completed_at` still set. -/
theorem delivery_success_iff_2xx
    (db : DB) (endpoint_id : Nat) (event_type : String) (payload : Payload)
    (endpoint_url : String) (headers : Option Headers) (secret : Option String)
    (timeout_seconds : Nat) (delivery_id : Option Nat) (now : Nat) :
    (∀ st body,
      let d := (deliver_webhook db endpoint_id event_type payload endpoint_url
        headers secret timeout_seconds delivery_id (.response st body) now).2
      (d.success = true ↔ 200 ≤ st ∧ st < 300) ∧
      d.response_status = some st ∧ d.completed_at = some now) ∧
    (∀ msg,
      let d := (deliver_webhook db endpoint_id event_type payload endpoint_url
        headers secret timeout_seconds delivery_id (.error msg) now).2
      d.success = false ∧ d.completed_at = some now) := by
  constructor
  · intro st body
    simp [deliver_webhook, record_result]
  · intro msg
    simp [deliver_webhook, record_result]

/-- C7: when the POST raises, the executor records status `0`, the error
message as body, `success = false` and `completed_at = now` on the
delivery row (which is persisted in the store), and — being a total
function on the exception outcome — never propagates the exception. -/
theorem delivery_error_recorded
    (db : DB) (endpoint_id : Nat) (event_type : String) (payload : Payload)
    (endpoint_url : String) (headers : Option Headers) (secret : Option String)
    (timeout_seconds : Nat) (delivery_id : Option Nat) (msg : String) (now : Nat) :
    let r := deliver_webhook db endpoint_id event_type payload endpoint_url
      headers secret timeout_seconds delivery_id (.error msg) now
    r.2.response_status = some 0 ∧ r.2.response_body = some msg ∧
    r.2.success = false ∧ r.2.completed_at = some now ∧
    r.2 ∈ r.1.deliveries := by
  refine ⟨?_, ?_, ?_, ?_, deliver_webhook_mem ..⟩ <;>
    simp [deliver_webhook, record_result]

/-- C1: one retry sweep selects exactly the deliveries with
`success = false`, `attempt_count` strictly below the owning endpoint's
`retry_count`, `next_retry_at` null or elapsed, and an `active` owning
endpoint; in particular a delivery whose `attempt_count` equals the
endpoint's `retry_count` is never selected. -/
theorem retry_sweep_selection (db : DB) (now : Nat) (d : WebhookDelivery) :
    (d ∈ select_retries db now ↔
      d ∈ db.deliveries ∧
      ∃ e, find_endpoint db d.endpoint_id = some e ∧
        d.success = false ∧
        d.attempt_count < e.retry_count ∧
        (d.next_retry_at = none ∨ ∃ t, d.next_retry_at = some t ∧ t ≤ now) ∧
        e.status = WebhookStatus.active) ∧
    (∀ e, find_endpoint db d.endpoint_id = some e →
      d.attempt_count = e.retry_count → d ∉ select_retries db now) := by
  have main : d ∈ select_retries db now ↔
      d ∈ db.deliveries ∧
      ∃ e, find_endpoint db d.endpoint_id = some e ∧
        d.success = false ∧
        d.attempt_count < e.retry_count ∧
        (d.next_retry_at = none ∨ ∃ t, d.next_retry_at = some t ∧ t ≤ now) ∧
        e.status = WebhookStatus.active := by
    simp only [select_retries, List.mem_filter]
    refine and_congr_right (fun _ => ?_)
    unfold retry_eligible
    cases hfe : find_endpoint db d.endpoint_id with
    | none => simp
    | some e =>
      cases hnr : d.next_retry_at with
      | none => simp [and_assoc]
      | some t => simp [and_assoc]
  refine ⟨main, fun e hfe heq hmem => ?_⟩
  obtain ⟨-, e', hfe', -, hlt, -, -⟩ := main.mp hmem
  rw [hfe] at hfe'
  cases hfe'
  omega

/-- C4: the sweep writes `next_retry_at = now + 60 * 2^min(attempt_count, 5)`
on the selected delivery and only then dispatches the executor; the delay
is monotonically non-decreasing in `attempt_count` and constant from
`attempt_count = 5` on. -/
theorem retry_backoff_schedule (db : DB) (now : Nat) (d : WebhookDelivery)
    (r : HttpResult) :
    (∀ x ∈ (schedule_retry db now d).deliveries, x.id = d.id →
      x.next_retry_at = some (now + 60 * 2 ^ (min d.attempt_count 5))) ∧
    (∀ e, find_endpoint db d.endpoint_id = some e →
      retry_step db now d r =
        ((deliver_webhook (schedule_retry db now d) e.id d.event_type d.payload
          e.url e.headers e.secret e.timeout_seconds (some d.id) r now).1, true)) ∧
    (∀ a b, a ≤ b → retry_delay a ≤ retry_delay b) ∧
    (∀ a, 5 ≤ a → retry_delay a = retry_delay 5) := by
  refine ⟨?_, ?_, ?_, ?_⟩
  · intro x hx hid
    simp only [schedule_retry, List.mem_map] at hx
    obtain ⟨x0, -, hx0⟩ := hx
    by_cases h0 : x0.id = d.id
    · simp only [h0, if_pos rfl] at hx0
      rw [← hx0]
      rfl
    · rw [if_neg h0] at hx0
      rw [← hx0] at hid
      exact absurd hid h0
  · intro e hfe
    unfold retry_step
    rw [hfe]
  · intro a b hab
    unfold retry_delay
    exact Nat.mul_le_mul_left 60
      (Nat.pow_le_pow_right (by norm_num) (min_le_min hab (le_refl 5)))
  · intro a ha
    unfold retry_delay
    rw [Nat.min_eq_right ha, Nat.min_self]

/-! ## Header-dict lemmas -/

/-- Setting a key makes it readable. -/
lemma hdrGet_hdrSet_self (d : Headers) (k v : String) :
    hdrGet (hdrSet d k v) k = some v := by
  induction d with
  | nil => simp [hdrSet, hdrGet]
  | cons kv tl ih =>
    by_cases h : kv.1 = k
    · simp [hdrSet, hdrGet, h]
    · simp [hdrSet, hdrGet, h, ih]

/-- Setting a key leaves the others unchanged. -/
lemma hdrGet_hdrSet_ne (d : Headers) {k k' v : String}
    (h : ¬k = k') : hdrGet (hdrSet d k v) k' = hdrGet d k' := by
  induction d with
  | nil => simp [hdrSet, hdrGet, h]
  | cons kv tl ih =>
    rw [hdrSet]
    by_cases hk : kv.1 = k
    · have hk' : ¬kv.1 = k' := by rw [hk]; exact h
      rw [if_pos hk]
      simp only [hdrGet]
      rw [if_neg h, if_neg hk']
    · rw [if_neg hk]
      simp only [hdrGet]
      by_cases hk' : kv.1 = k'
      · rw [if_pos hk', if_pos hk']
      · rw [if_neg hk', if_neg hk', ih]

/-- A key absent from a dict reads as `none`. -/
lemma hdrGet_eq_none (d : Headers) (k : String)
    (h : k ∉ d.map Prod.fst) : hdrGet d k = none := by
  induction d with
  | nil => rfl
  | cons kv tl ih =>
    simp only [List.map_cons, List.mem_cons] at h
    push_neg at h
    rw [hdrGet, if_neg (Ne.symm h.1), ih h.2]

/-- Python `dict.update` with a dict not containing `k` does not change `k`. -/
lemma hdrGet_hdrUpdate_none (d e : Headers) (k : String)
    (h : hdrGet e k = none) : hdrGet (hdrUpdate d e) k = hdrGet d k := by
  induction e generalizing d with
  | nil => rfl
  | cons kv tl ih =>
    by_cases hk : kv.1 = k
    · simp [hdrGet, hk] at h
    · rw [hdrGet, if_neg hk] at h
      rw [hdrUpdate, List.foldl_cons, ← hdrUpdate, ih _ h, hdrGet_hdrSet_ne _ hk]

/-- Python `dict.update` takes the updating dict's value for keys it contains
(assuming its keys are unique, as in a real dict). -/
lemma hdrGet_hdrUpdate_some (d e : Headers) (k v : String)
    (hnd : (e.map Prod.fst).Nodup) (h : hdrGet e k = some v) :
    hdrGet (hdrUpdate d e) k = some v := by
  induction e generalizing d with
  | nil => simp [hdrGet] at h
  | cons kv tl ih =>
    simp only [List.map_cons, List.nodup_cons] at hnd
    by_cases hk : kv.1 = k
    · rw [hdrGet, if_pos hk, Option.some.injEq] at h
      subst h
      rw [hdrUpdate, List.foldl_cons, ← hdrUpdate, hk]
      rw [hdrGet_hdrUpdate_none _ _ _ (hdrGet_eq_none _ _ (by rw [← hk]; exact hnd.1))]
      exact hdrGet_hdrSet_self ..
    · rw [hdrGet, if_neg hk] at h
      rw [hdrUpdate, List.foldl_cons, ← hdrUpdate]
      exact ih _ hnd.2 h

/-- What the executor persists as `request_headers`: exactly the header
dict assembled by `build_request_headers` for the record's id. -/
lemma deliver_webhook_request_headers (db : DB) (endpoint_id : Nat)
    (event_type : String) (payload : Payload) (endpoint_url : String)
    (headers : Option Headers) (secret : Option String) (timeout_seconds : Nat)
    (delivery_id : Option Nat) (result : HttpResult) (now : Nat) :
    (deliver_webhook db endpoint_id event_type payload endpoint_url headers
      secret timeout_seconds delivery_id result now).2.request_headers =
    some (build_request_headers
      (get_or_create db endpoint_id event_type payload delivery_id).2.id
      event_type payload headers secret) := by
  simp only [deliver_webhook]
  rw [(record_result_untouched _ result now).2.2.2.2]

/-- The four generated default headers never include the signature key. -/
lemma hdrGet_base_sig (did : Nat) (et : String) :
    hdrGet [("Content-Type", "application/json"),
            ("User-Agent", "Dotmac-Platform-Core-Webhook"),
            ("X-Webhook-ID", toString did),
            ("X-Webhook-Event", et)] "X-Webhook-Signature" = none := by
  simp [hdrGet]

/-- C3: every delivery attempt for an endpoint with a non-empty secret
sends an `X-Webhook-Signature` header equal to the lowercase-hex
HMAC-SHA256, keyed by the secret, of the JSON serialisation of the
payload; with an empty or absent secret, `_generate_signature` returns
`""` and the executor adds no signature header. -/
theorem delivery_signature_header
    (db : DB) (endpoint_id : Nat) (event_type : String) (payload : Payload)
    (endpoint_url : String) (headers : Option Headers) (secret : Option String)
    (timeout_seconds : Nat) (delivery_id : Option Nat) (result : HttpResult)
    (now : Nat) :
    let d := (deliver_webhook db endpoint_id event_type payload endpoint_url
      headers secret timeout_seconds delivery_id result now).2
    (∀ s, secret = some s → s ≠ "" →
      hdrGet (d.request_headers.getD []) "X-Webhook-Signature" =
        some (Sha256.hexOfBytes (Sha256.hmacSha256 (strBytes s)
          (strBytes (jsonDumps payload))))) ∧
    (∀ p, generate_signature p "" = "") ∧
    ((secret = none ∨ secret = some "") →
      hdrGet (headers.getD []) "X-Webhook-Signature" = none →
      hdrGet (d.request_headers.getD []) "X-Webhook-Signature" = none) := by
  intro d
  have hreq : d.request_headers = some (build_request_headers
      (get_or_create db endpoint_id event_type payload delivery_id).2.id
      event_type payload headers secret) :=
    deliver_webhook_request_headers ..
  refine ⟨?_, fun p => rfl, ?_⟩
  · intro s hs hne
    subst hs
    rw [hreq]
    simp only [Option.getD_some, build_request_headers]
    rw [if_neg hne, hdrGet_hdrSet_self]
    rw [generate_signature, if_neg hne]
  · intro hsec hcust
    rw [hreq]
    simp only [Option.getD_some]
    rcases hsec with h | h <;> subst h
    · simp only [build_request_headers]
      cases headers with
      | none => exact hdrGet_base_sig ..
      | some custom =>
        simp only [Option.getD_some] at hcust
        rw [hdrGet_hdrUpdate_none _ _ _ hcust]
        exact hdrGet_base_sig ..
    · simp only [build_request_headers]
      rw [if_pos trivial]
      cases headers with
      | none => exact hdrGet_base_sig ..
      | some custom =>
        simp only [Option.getD_some] at hcust
        rw [hdrGet_hdrUpdate_none _ _ _ hcust]
        exact hdrGet_base_sig ..

/-- C3 witness: a concrete delivery with secret `"s3cr3t"` carries the
HMAC-SHA256 signature header. -/
theorem delivery_signature_header_witness :
    hdrGet (((deliver_webhook (egDB 3) 1 "config.created" egPayload
        "https://example.com/hook" none (some "s3cr3t") 5 none
        (.response 200 "ok") 0).2.request_headers).getD [])
      "X-Webhook-Signature" =
    some (Sha256.hexOfBytes (Sha256.hmacSha256 (strBytes "s3cr3t")
      (strBytes (jsonDumps egPayload)))) :=
  (delivery_signature_header (egDB 3) 1 "config.created" egPayload
    "https://example.com/hook" none (some "s3cr3t") 5 none
    (.response 200 "ok") 0).1 "s3cr3t" rfl (by decide)

/-- C10: a custom endpoint header overrides a generated default of the
same name in the sent request headers, while the signature header is set
after the merge and always carries the computed signature. -/
theorem custom_headers_override
    (db : DB) (endpoint_id : Nat) (event_type : String) (payload : Payload)
    (endpoint_url : String) (headers : Option Headers) (secret : Option String)
    (timeout_seconds : Nat) (delivery_id : Option Nat) (result : HttpResult)
    (now : Nat) :
    let d := (deliver_webhook db endpoint_id event_type payload endpoint_url
      headers secret timeout_seconds delivery_id result now).2
    (∀ custom, headers = some custom → (custom.map Prod.fst).Nodup →
      ∀ k v, hdrGet custom k = some v → ¬k = "X-Webhook-Signature" →
        hdrGet (d.request_headers.getD []) k = some v) ∧
    (∀ s, secret = some s → s ≠ "" →
      hdrGet (d.request_headers.getD []) "X-Webhook-Signature" =
        some (generate_signature payload s)) := by
  intro d
  have hreq : d.request_headers = some (build_request_headers
      (get_or_create db endpoint_id event_type payload delivery_id).2.id
      event_type payload headers secret) :=
    deliver_webhook_request_headers ..
  constructor
  · intro custom hc hnd k v hget hk
    subst hc
    rw [hreq]
    cases secret with
    | none =>
      simp only [Option.getD_some, build_request_headers]
      exact hdrGet_hdrUpdate_some _ _ _ _ hnd hget
    | some s =>
      simp only [Option.getD_some, build_request_headers]
      by_cases hs : s = ""
      · rw [if_pos hs]
        exact hdrGet_hdrUpdate_some _ _ _ _ hnd hget
      · rw [if_neg hs, hdrGet_hdrSet_ne _ (fun hh => hk hh.symm)]
        exact hdrGet_hdrUpdate_some _ _ _ _ hnd hget
  · intro s hs hne
    subst hs
    rw [hreq]
    simp only [Option.getD_some, build_request_headers]
    rw [if_neg hne, hdrGet_hdrSet_self]

/-- C10 witness: a concrete custom `Content-Type` wins over the default,
and the signature header still carries the computed signature. -/
theorem custom_headers_override_witness :
    hdrGet (((deliver_webhook (egDB 3) 1 "config.created" egPayload
        "https://example.com/hook" (some [("Content-Type", "text/plain")])
        (some "s3cr3t") 5 none (.response 200 "ok") 0).2.request_headers).getD [])
      "Content-Type" = some "text/plain" ∧
    hdrGet (((deliver_webhook (egDB 3) 1 "config.created" egPayload
        "https://example.com/hook" (some [("Content-Type", "text/plain")])
        (some "s3cr3t") 5 none (.response 200 "ok") 0).2.request_headers).getD [])
      "X-Webhook-Signature" = some (generate_signature egPayload "s3cr3t") :=
  ⟨(custom_headers_override (egDB 3) 1 "config.created" egPayload
      "https://example.com/hook" (some [("Content-Type", "text/plain")])
      (some "s3cr3t") 5 none (.response 200 "ok") 0).1
      [("Content-Type", "text/plain")] rfl (by simp) "Content-Type" "text/plain"
      (by simp [hdrGet]) (by decide),
   (custom_headers_override (egDB 3) 1 "config.created" egPayload
      "https://example.com/hook" (some [("Content-Type", "text/plain")])
      (some "s3cr3t") 5 none (.response 200 "ok") 0).2 "s3cr3t" rfl (by decide)⟩

/-- Unfolding of the matcher's join: a pair is produced exactly for a
subscription row of the event type on an active endpoint. -/
lemma mem_get_endpoints_for_event (db : DB) (T : String)
    (e : WebhookEndpoint) (s : WebhookSubscription) :
    (e, s) ∈ get_endpoints_for_event db T ↔
      e ∈ db.endpoints ∧ s ∈ db.subscriptions ∧ s.endpoint_id = e.id ∧
      s.event_type = T ∧ e.status = WebhookStatus.active := by
  simp only [get_endpoints_for_event, List.mem_flatMap, List.mem_map,
    List.mem_filter, decide_eq_true_eq, Prod.mk.injEq]
  constructor
  · rintro ⟨e', he', s', ⟨hs', h1, h2, h3⟩, he, hs⟩
    subst he
    subst hs
    exact ⟨he', hs', h1, h2, h3⟩
  · rintro ⟨he, hs, h1, h2, h3⟩
    exact ⟨e, he, s, ⟨hs, h1, h2, h3⟩, rfl, rfl⟩

/-- The trigger loop appends one fresh delivery row per filter-passing
candidate, and nothing else. -/
lemma trigger_loop_new (event_type : String) (payload : Payload) :
    ∀ (l : List (WebhookEndpoint × WebhookSubscription)) (db : DB),
    ∃ new : List WebhookDelivery,
      (trigger_loop event_type payload db l).1.deliveries = db.deliveries ++ new ∧
      ∀ eid, (∃ d ∈ new, d.endpoint_id = eid) ↔
        (∃ es ∈ l, matches_filter es.2.filter_conditions payload = true ∧
          es.1.id = eid) := by
  intro l
  induction l with
  | nil =>
    intro db
    exact ⟨[], by simp [trigger_loop], by simp⟩
  | cons es rest ih =>
    intro db
    obtain ⟨e, s⟩ := es
    by_cases hm : matches_filter s.filter_conditions payload = true
    · obtain ⟨new, hdel, hmem⟩ := ih (addDelivery db (newDelivery db e.id event_type payload))
      refine ⟨newDelivery db e.id event_type payload :: new, ?_, ?_⟩
      · simp only [trigger_loop, if_pos hm]
        rw [hdel]
        simp [addDelivery]
      · intro eid
        simp only [List.exists_mem_cons_iff, hmem eid, hm]
        simp [newDelivery]
    · obtain ⟨new, hdel, hmem⟩ := ih db
      refine ⟨new, ?_, ?_⟩
      · simp only [trigger_loop, if_neg hm]
        exact hdel
      · intro eid
        rw [hmem eid]
        simp [List.exists_mem_cons_iff, hm]

/-- C5: triggering event type `T` creates delivery rows exactly for the
active endpoints holding a subscription to `T` whose filter conditions
are a subset-with-equal-values of the payload; a subscription with no
filter conditions always matches. -/
theorem trigger_fanout (db : DB) (event_type : String) (payload : Payload) :
    (∃ new : List WebhookDelivery,
      (trigger_webhook db event_type payload).1.deliveries =
        db.deliveries ++ new ∧
      ∀ eid, (∃ d ∈ new, d.endpoint_id = eid) ↔
        ∃ e ∈ db.endpoints, ∃ s ∈ db.subscriptions,
          s.endpoint_id = e.id ∧ s.event_type = event_type ∧
          e.status = WebhookStatus.active ∧
          matches_filter s.filter_conditions payload = true ∧ e.id = eid) ∧
    (∀ conds p, filter_match conds p = true ↔
      ∀ kv ∈ conds, dictGet p kv.1 = some kv.2) ∧
    (∀ p, matches_filter none p = true) := by
  refine ⟨?_, ?_, fun p => rfl⟩
  · obtain ⟨new, hdel, hmem⟩ :=
      trigger_loop_new event_type payload (get_endpoints_for_event db event_type) db
    refine ⟨new, hdel, fun eid => ?_⟩
    rw [hmem eid]
    constructor
    · rintro ⟨⟨e, s⟩, hin, hm, hid⟩
      rw [mem_get_endpoints_for_event] at hin
      exact ⟨e, hin.1, s, hin.2.1, hin.2.2.1, hin.2.2.2.1, hin.2.2.2.2, hm, hid⟩
    · rintro ⟨e, he, s, hs, h1, h2, h3, h4, h5⟩
      exact ⟨(e, s), (mem_get_endpoints_for_event db event_type e s).mpr
        ⟨he, hs, h1, h2, h3⟩, h4, h5⟩
  · intro conds p
    rw [filter_match, List.all_eq_true]
    constructor
    · intro h kv hkv
      have hh := h kv hkv
      cases hd : dictGet p kv.1 with
      | none => rw [hd] at hh; exact absurd hh (by simp)
      | some v =>
        rw [hd] at hh
        simp only [beq_iff_eq] at hh
        rw [hh]
    · intro h kv hkv
      rw [h kv hkv]
      simp

/-- C5 witness: a subscription with no filter conditions matches the
scenario payload. -/
theorem trigger_fanout_witness : matches_filter none egPayload = true :=
  (trigger_fanout (egDB 3) "config.created" egPayload).2.2 egPayload

/-- On a hit, `get_or_create` returns the row with `attempt_count`
incremented and `next_retry_at` cleared. -/
lemma get_or_create_found (db : DB) (eid : Nat) (et : String) (p : Payload)
    (did : Nat) (d0 : WebhookDelivery)
    (hfound : db.deliveries.find? (fun x => x.id == did) = some d0) :
    (get_or_create db eid et p (some did)).2 =
      { d0 with attempt_count := d0.attempt_count + 1, next_retry_at := none } := by
  simp [get_or_create, hfound]

/-- C9: an executor run against an existing delivery row clears
`next_retry_at` and never re-sets it; the returned row therefore passes
the sweep's time gate at every later `now`, so if the attempt failed and
the remaining predicate conditions hold, the delivery is selected by the
very next sweep regardless of the scheduled backoff. -/
theorem executor_clears_next_retry
    (db : DB) (endpoint_id : Nat) (event_type : String) (payload : Payload)
    (endpoint_url : String) (headers : Option Headers) (secret : Option String)
    (timeout_seconds : Nat) (did : Nat) (result : HttpResult) (now : Nat)
    (d0 : WebhookDelivery)
    (hfound : db.deliveries.find? (fun x => x.id == did) = some d0) :
    let r := deliver_webhook db endpoint_id event_type payload endpoint_url
      headers secret timeout_seconds (some did) result now
    r.2.next_retry_at = none ∧
    (∀ now' e, find_endpoint r.1 r.2.endpoint_id = some e →
      r.2.success = false → r.2.attempt_count < e.retry_count →
      e.status = WebhookStatus.active → r.2 ∈ select_retries r.1 now') := by
  intro r
  have hnr : r.2.next_retry_at = none := by
    show (record_result _ result now).next_retry_at = none
    rw [(record_result_untouched _ result now).2.2.2.1]
    show (get_or_create db endpoint_id event_type payload (some did)).2.next_retry_at = none
    rw [get_or_create_found db endpoint_id event_type payload did d0 hfound]
  refine ⟨hnr, fun now' e hfe hsucc hlt hstat => ?_⟩
  rw [select_retries, List.mem_filter]
  refine ⟨deliver_webhook_mem .., ?_⟩
  rw [retry_eligible, hfe, hnr, hsucc]
  simp [hstat, hlt]

/-- C9 witness: a concrete failed re-run of delivery row 1 is selected
again by a sweep held immediately afterwards, despite the backoff time
`999999` the schedule had written. -/
theorem executor_clears_next_retry_witness :
    (deliver_webhook egRetryDB 1 "config.created" egPayload
      "https://example.com/hook" none none 5 (some 1) (.error "boom")
      77).2.next_retry_at = none ∧
    (deliver_webhook egRetryDB 1 "config.created" egPayload
      "https://example.com/hook" none none 5 (some 1) (.error "boom") 77).2 ∈
    select_retries
      (deliver_webhook egRetryDB 1 "config.created" egPayload
        "https://example.com/hook" none none 5 (some 1) (.error "boom") 77).1
      78 :=
  have h := executor_clears_next_retry egRetryDB 1 "config.created" egPayload
    "https://example.com/hook" none none 5 1 (.error "boom") 77
    egFailedDelivery (by decide)
  ⟨h.1, h.2 78 (egEndpoint 3) (by decide) (by decide) (by decide) (by decide)⟩

/-- Validation of the hash model against FIPS 180-4: SHA-256 of `"abc"`. -/
lemma sha256_abc_vector :
    Sha256.hexOfBytes (Sha256.sha256 (strBytes "abc")) =
      "ba7816bf8f01cfea414140de5dae2223b00361a396177a9cb410ff61f20015ad" := by
  decide

set_option maxRecDepth 8192 in
/-- Validation of the whole signing pipeline (UTF-8, `json.dumps`,
HMAC-SHA256, hex) against the value
`hmac.new(b"s3cr3t", json.dumps({"key": "x"}).encode(), hashlib.sha256).hexdigest()`
computed by the Python standard library. -/
lemma generate_signature_vector :
    WebhooksService.generate_signature egPayload "s3cr3t" =
      "11345e26d2c3e788ab715fd6495562c4bdbfedd8c7b3de7d520d7c95466ff673" := by
  decide

/-- C1 witness: an eligible-looking delivery already at
`attempt_count = retry_count = 1` is not selected. -/
theorem retry_sweep_selection_witness :
    egFailedDelivery ∉
      select_retries { egRetryDB with endpoints := [egEndpoint 1] } 100 :=
  (retry_sweep_selection { egRetryDB with endpoints := [egEndpoint 1] } 100
    egFailedDelivery).2 (egEndpoint 1) (by decide) (by decide)

/-- C4 witness: backoff values at concrete attempt counts, and a concrete
sweep step that schedules before it dispatches. -/
theorem retry_backoff_schedule_witness :
    retry_delay 3 ≤ retry_delay 4 ∧ retry_delay 7 = retry_delay 5 ∧
    retry_step egRetryDB 100 egFailedDelivery (.error "x") =
      ((deliver_webhook (schedule_retry egRetryDB 100 egFailedDelivery) 1
        "config.created" egPayload "https://example.com/hook" none none 5
        (some 1) (.error "x") 100).1, true) :=
  ⟨(retry_backoff_schedule egRetryDB 100 egFailedDelivery (.error "x")).2.2.1
      3 4 (by decide),
   (retry_backoff_schedule egRetryDB 100 egFailedDelivery (.error "x")).2.2.2
      7 (by decide),
   (retry_backoff_schedule egRetryDB 100 egFailedDelivery (.error "x")).2.1
      (egEndpoint 3) (by decide)⟩

/-- C2 (code-bug exhibit): triggering the scenario schedules exactly one
background delivery; running it against HTTP 500 records
`success = false` and `response_status = 500` — but `attempt_count = 2`,
not 1: `trigger_webhook` hands the freshly created row's id to
`_deliver_webhook`, which increments `attempt_count` on what is the
first attempt.  Consequently a sweep at `retry_count = 2` dispatches
nothing, and at `retry_count = 3` one sweep advances `attempt_count` to
3, not 2. -/
theorem trigger_then_500_attempt_count :
    ((trigger_webhook (egDB 2) "config.created" egPayload).2.2 = [egTask]) ∧
    ((run_task (trigger_webhook (egDB 2) "config.created" egPayload).1
        egTask (.response 500 "err") 100).2.success = false) ∧
    ((run_task (trigger_webhook (egDB 2) "config.created" egPayload).1
        egTask (.response 500 "err") 100).2.response_status = some 500) ∧
    ((run_task (trigger_webhook (egDB 2) "config.created" egPayload).1
        egTask (.response 500 "err") 100).2.attempt_count = 2) ∧
    ((retry_failed_deliveries
        (run_task (trigger_webhook (egDB 2) "config.created" egPayload).1
          egTask (.response 500 "err") 100).1
        100000 (fun _ => .response 500 "err")).2 = 0) ∧
    ((retry_failed_deliveries
        (run_task (trigger_webhook (egDB 3) "config.created" egPayload).1
          egTask (.response 500 "err") 100).1
        100000 (fun _ => .response 500 "err")).2 = 1) ∧
    ((retry_failed_deliveries
        (run_task (trigger_webhook (egDB 3) "config.created" egPayload).1
          egTask (.response 500 "err") 100).1
        100000 (fun _ => .response 500 "err")).1.deliveries.map
          WebhookDelivery.attempt_count = [3]) := by
  decide

/-- C8 (code-bug exhibit): with `retry_count = 0` (a value the API
accepts) the reachable state after one triggered attempt holds a
delivery row with `attempt_count = 2 > retry_count + 1 = 1`. -/
theorem attempt_count_exceeds_bound :
    ((run_task (trigger_webhook (egDB 0) "config.created" egPayload).1 egTask
      (.response 500 "err") 100).2 ∈
      (run_task (trigger_webhook (egDB 0) "config.created" egPayload).1 egTask
        (.response 500 "err") 100).1.deliveries) ∧
    ((run_task (trigger_webhook (egDB 0) "config.created" egPayload).1 egTask
      (.response 500 "err") 100).2.attempt_count = 2) ∧
    ((egEndpoint 0).retry_count = 0) ∧
    ¬((run_task (trigger_webhook (egDB 0) "config.created" egPayload).1 egTask
      (.response 500 "err") 100).2.attempt_count ≤ (egEndpoint 0).retry_count + 1) := by
  decide
